import Mathlib

/-!
Verification of the podcast-creator generation pipeline against its
specification.  The Python source is shallowly embedded: pure functions
become Lean functions, Python `or`-chains become explicit truthiness
helpers, exceptions become an explicit error type, and the environment
becomes a lookup function.  Modules absent from the source tree
(`core.py`, `nodes.py`, `speakers.py`, `episodes.py`) are modelled from
the specification, as marked in their doc comments.
-/

/- ===== Retry policy (src/podcast_creator/retry.py) ===== -/

/-- Kinds of Python exceptions relevant to the retry policy: the five
classes of `NON_RETRYABLE_EXCEPTIONS` in retry.py, and any other
exception class identified by name. -/
inductive ExcKind where
  | valueError
  | typeError
  | keyError
  | fileNotFoundError
  | assertionError
  | otherExc (name : String)
deriving DecidableEq, Repr

/-- Membership test for the `NON_RETRYABLE_EXCEPTIONS` tuple of retry.py
(ValueError, TypeError, KeyError, FileNotFoundError, AssertionError). -/
def isNonRetryableKind : ExcKind → Bool
  | .valueError => true
  | .typeError => true
  | .keyError => true
  | .fileNotFoundError => true
  | .assertionError => true
  | .otherExc _ => false

/-- A Python exception as seen by the retry policy: its class, an
optional HTTP-style `status_code` attribute, and its message. -/
structure PyExc where
  kind : ExcKind
  status_code : Option Int
  msg : String
deriving DecidableEq, Repr

/-- The status-code test of `_is_retryable` in retry.py:
`status_code is not None and 400 <= status_code < 500 and status_code != 429`. -/
def statusNonRetryable : Option Int → Bool
  | some s => if 400 ≤ s ∧ s < 500 ∧ s ≠ 429 then true else false
  | none => false

/-- Embedding of `_is_retryable` from retry.py: an exception is not
retried when it is one of the `NON_RETRYABLE_EXCEPTIONS` kinds, or when
it carries a `status_code` in [400, 500) other than 429; every other
exception is retryable. -/
def _is_retryable (e : PyExc) : Bool :=
  if isNonRetryableKind e.kind then false
  else if statusNonRetryable e.status_code then false
  else true

/-- Hardcoded default from retry.py line 13. -/
def DEFAULT_MAX_ATTEMPTS : Int := 3

/-- Hardcoded default from retry.py line 14. -/
def DEFAULT_WAIT_MULTIPLIER : Int := 5

/-- Hardcoded default from retry.py line 15. -/
def DEFAULT_WAIT_MAX : Int := 30

/-- The record returned by `get_retry_config`. -/
structure RetryConfig where
  max_attempts : Int
  wait_multiplier : Int
  wait_max : Int
deriving DecidableEq, Repr

/-- Python truthiness for an optional integer value, as used by the
`a or b` chains in `get_retry_config`: `None` and `0` are falsy. -/
def intTruthy : Option Int → Option Int
  | some v => if v = 0 then none else some v
  | none => none

/-- Python `x or y or d` on two optional integers with an integer
default: the first truthy value wins, otherwise the default. -/
def firstTruthyInt (a b : Option Int) (d : Int) : Int :=
  match intTruthy a with
  | some v => v
  | none =>
    match intTruthy b with
    | some v => v
    | none => d

/-- Embedding of `get_retry_config` from retry.py: reads each setting
from the configurable dict, then the environment, then the hardcoded
default, with Python `or` (truthiness) chaining.  The environment is
modelled as a lookup function returning the already-int-parsed value of
`_int_env`. -/
def get_retry_config (configurable : Option (List (String × Int)))
    (env : String → Option Int) : RetryConfig :=
  let cfg := configurable.getD []
  { max_attempts :=
      firstTruthyInt (List.lookup "retry_max_attempts" cfg)
        (env "PODCAST_RETRY_MAX_ATTEMPTS") DEFAULT_MAX_ATTEMPTS
    wait_multiplier :=
      firstTruthyInt (List.lookup "retry_wait_multiplier" cfg)
        (env "PODCAST_RETRY_WAIT_MULTIPLIER") DEFAULT_WAIT_MULTIPLIER
    wait_max :=
      firstTruthyInt (List.lookup "retry_wait_max" cfg)
        (env "PODCAST_RETRY_WAIT_MAX") DEFAULT_WAIT_MAX }

/-- Execution of the tenacity retry loop built by `create_retry_decorator`
in retry.py (stop_after_attempt, retry_if_exception `_is_retryable`,
reraise=True).  `f i` is the outcome of the i-th call (0-based) of the
wrapped function; `remaining` is the number of attempts still allowed.
Returns the final outcome together with the total number of calls made.
On the last allowed attempt the outcome is final either way (reraise
returns the original exception unwrapped). -/
def retryGo {A : Type} (f : Nat → Except PyExc A) : Nat → Nat → Except PyExc A × Nat
  | 0, idx => (f idx, idx + 1)
  | 1, idx => (f idx, idx + 1)
  | remaining + 2, idx =>
    match f idx with
    | .ok v => (.ok v, idx + 1)
    | .error e =>
      if _is_retryable e then retryGo f (remaining + 1) (idx + 1)
      else (.error e, idx + 1)

/-- Behaviour of a function wrapped by the decorator returned by
`create_retry_decorator max_attempts` in retry.py: run up to
`max_attempts` calls, retrying only retryable exceptions, re-raising the
most recent exception unchanged on exhaustion. -/
def runRetry {A : Type} (max_attempts : Nat) (f : Nat → Except PyExc A) :
    Except PyExc A × Nat :=
  retryGo f max_attempts 0

/-- A provider-style exception with status 404, as in the retry tests'
`NotFoundError`. -/
def notFoundE : PyExc := ⟨.otherExc "NotFoundError", some 404, "model does not exist"⟩

/-- A provider-style exception with status 500, as in the retry tests'
`ServerError`. -/
def serverE : PyExc := ⟨.otherExc "ServerError", some 500, "internal server error"⟩

/-- A provider-style exception with status 429, as in the retry tests'
`RateLimitError`. -/
def rateLimE : PyExc := ⟨.otherExc "RateLimitError", some 429, "too many requests"⟩

/-- A ValueError that also carries an HTTP status_code 500 attribute
(possible in Python: `class E(ValueError): status_code = 500`). -/
def valueErr500 : PyExc := ⟨.valueError, some 500, "boom"⟩

/-- A function that raises a rate-limit error on its first two calls and
succeeds on the third, as in the retry tests. -/
def flakyF : Nat → Except PyExc Nat :=
  fun n => if n < 2 then Except.error rateLimE else Except.ok 42

/- ===== Proxy resolution (src/podcast_creator/utils.py) ===== -/

/-- Python truthiness for an optional string environment value, as in
`if env_proxy:` in utils.py: `None` and the empty string are falsy. -/
def strTruthy : Option String → Option String
  | some s => if s = "" then none else some s
  | none => none

/-- Embedding of `get_proxy` from utils.py: a runtime argument wins
outright (the empty string explicitly disabling the proxy); otherwise
the first truthy value among `PODCAST_CREATOR_PROXY`, `HTTP_PROXY`,
`HTTPS_PROXY`, in that order; otherwise no proxy. -/
def get_proxy (runtime_proxy : Option String) (env : String → Option String) :
    Option String :=
  match runtime_proxy with
  | some r => if r = "" then none else some r
  | none =>
    match strTruthy (env "PODCAST_CREATOR_PROXY") with
    | some v => some v
    | none =>
      match strTruthy (env "HTTP_PROXY") with
      | some v => some v
      | none =>
        match strTruthy (env "HTTPS_PROXY") with
        | some v => some v
        | none => none

/- ===== Call-config merge (nodes.py, not in the source tree) ===== -/

/-- Modelled from the spec: the shallow call-config merge performed by
`generate_outline_node` and `generate_transcript_node` in nodes.py
(absent from the source tree): start from a fixed base map, overlay
every key present in the run's override map including unknown keys,
leave missing keys untouched.  Maps are association lists; this is the
Python `{**base, **override}` update. -/
def mergeConfig {V : Type} (base override : List (String × V)) :
    List (String × V) :=
  base.map (fun kv => (kv.1, (List.lookup kv.1 override).getD kv.2))
    ++ override.filter (fun kv => (List.lookup kv.1 base).isNone)

/-- Modelled from the spec: the nodes read the override map from the run
configuration, where it may be absent (`None`), treated as empty. -/
def resolveCallConfig {V : Type} (base : List (String × V))
    (override : Option (List (String × V))) : List (String × V) :=
  mergeConfig base (override.getD [])

/- ===== Speakers and audio dispatch (speakers.py / nodes.py, not in the source tree) ===== -/

/-- Modelled from the spec: one voice of the roster (speakers.py, absent
from the source tree), with per-speaker override fields where `none`
means inherit from the profile; an explicitly empty config map is
`some []`, distinct from `none`.  Config values are an arbitrary type. -/
structure Speaker (V : Type) where
  name : String
  voice_id : String
  backstory : String
  personality : String
  tts_provider : Option String
  tts_model : Option String
  tts_config : Option (List (String × V))

/-- Modelled from the spec: a named speaker roster with profile-level
TTS settings (speakers.py, absent from the source tree). -/
structure SpeakerProfile (V : Type) where
  tts_provider : String
  tts_model : String
  tts_config : Option (List (String × V))
  speakers : List (Speaker V)

/-- One speaking turn of the transcript. -/
structure DialogueTurn where
  speaker : String
  dialogue : String

/-- The per-turn request record that `generate_all_audio_node` hands to
`generate_single_audio_clip` (nodes.py, absent from the source tree). -/
structure DialogueInfo (V : Type) where
  index : Nat
  speaker : String
  text : String
  tts_provider : String
  tts_model : String
  tts_config : Option (List (String × V))

/-- Modelled from the spec: per speaker, a present `tts_config`
(including an explicitly empty map) replaces the profile's wholesale;
an absent one inherits the profile's. -/
def effective_tts_config {V : Type} (sp : Speaker V) (prof : SpeakerProfile V) :
    Option (List (String × V)) :=
  match sp.tts_config with
  | some c => some c
  | none => prof.tts_config

/-- Modelled from the spec: resolution of one transcript turn into a TTS
request by `generate_all_audio_node`: the speaker is looked up by name
in the profile and the effective provider/model/config are the
speaker's overrides falling back to the profile's values. -/
def buildDialogueInfo {V : Type} (prof : SpeakerProfile V) (idx : Nat)
    (d : DialogueTurn) : Option (DialogueInfo V) :=
  (prof.speakers.find? (fun s => s.name == d.speaker)).map (fun sp =>
    { index := idx
      speaker := d.speaker
      text := d.dialogue
      tts_provider := sp.tts_provider.getD prof.tts_provider
      tts_model := sp.tts_model.getD prof.tts_model
      tts_config := effective_tts_config sp prof })

/-- A speaker whose tts_config is explicitly the empty map. -/
def wAlice : Speaker String := ⟨"Alice", "v1", "b", "p", none, none, some []⟩

/-- A speaker with no TTS overrides at all. -/
def wBob : Speaker String := ⟨"Bob", "v2", "b", "p", none, none, none⟩

/-- A profile with a profile-level tts_config, as in the node tests. -/
def wProfile : SpeakerProfile String :=
  { tts_provider := "openai"
    tts_model := "tts-1"
    tts_config := some [("api_key", "sk-profile"), ("stability", "0.5")]
    speakers := [wAlice, wBob] }

/-- The request record resolved for wAlice. -/
def wAliceInfo : DialogueInfo String :=
  { index := 0, speaker := "Alice", text := "Hello"
    tts_provider := "openai", tts_model := "tts-1", tts_config := some [] }

/-- The request record resolved for wBob. -/
def wBobInfo : DialogueInfo String :=
  { index := 1, speaker := "Bob", text := "Hi"
    tts_provider := "openai", tts_model := "tts-1"
    tts_config := some [("api_key", "sk-profile"), ("stability", "0.5")] }

/- ===== create_podcast parameter resolution (src/podcast_creator/graph.py) ===== -/

/-- The episode-profile defaults returned by `load_episode_config`
(episodes.py is absent from the source tree; the fields are exactly
those read by `create_podcast` in graph.py lines 100-106). -/
structure EpisodeConfig where
  speaker_config : String
  outline_provider : String
  outline_model : String
  transcript_provider : String
  transcript_model : String
  num_segments : Int
  generate_audio : Bool
deriving DecidableEq, Repr

/-- The parameters of `create_podcast` after the resolution step.
`generate_audio` stays optional because the no-profile branch of
graph.py (line 117) leaves it as the caller passed it. -/
structure ResolvedParams where
  speaker_config : String
  outline_provider : String
  outline_model : String
  transcript_provider : String
  transcript_model : String
  num_segments : Int
  generate_audio : Option Bool
deriving DecidableEq, Repr

/-- Python `a or b` for an optional string left operand: `None` and the
empty string are falsy. -/
def pyOrStr (a : Option String) (b : String) : String :=
  match a with
  | some s => if s = "" then b else s
  | none => b

/-- Python `a or b` for an optional integer left operand: `None` and
`0` are falsy. -/
def pyOrInt (a : Option Int) (b : Int) : Int :=
  match a with
  | some v => if v = 0 then b else v
  | none => b

/-- Python `a or b` for an `Optional[bool]` left operand: only `True`
is truthy, `False` and `None` fall through to the right operand. -/
def pyOrBool (a : Option Bool) (b : Bool) : Bool :=
  match a with
  | some x => if x then true else b
  | none => b

/-- Python falsiness of an optional string, as in `if not episode_name:`
in graph.py: `None` and the empty string are falsy. -/
def strFalsy : Option String → Bool
  | some s => s = ""
  | none => true

/-- Embedding of graph.py lines 100-106: with an episode profile, each
parameter is resolved as `caller_value or profile_value` under Python
truthiness (including `generate_audio or episode_config.generate_audio`
on line 106, whose caller default is `True`). -/
def resolveWithProfile (ep : EpisodeConfig)
    (speaker_config outline_provider outline_model transcript_provider
      transcript_model : Option String)
    (num_segments : Option Int) (generate_audio : Option Bool) : ResolvedParams :=
  { speaker_config := pyOrStr speaker_config ep.speaker_config
    outline_provider := pyOrStr outline_provider ep.outline_provider
    outline_model := pyOrStr outline_model ep.outline_model
    transcript_provider := pyOrStr transcript_provider ep.transcript_provider
    transcript_model := pyOrStr transcript_model ep.transcript_model
    num_segments := pyOrInt num_segments ep.num_segments
    generate_audio := some (pyOrBool generate_audio ep.generate_audio) }

/-- Embedding of graph.py lines 110-117: without a profile, hardcoded
defaults fill unset parameters and `generate_audio` is left as passed. -/
def resolveWithDefaults
    (speaker_config outline_provider outline_model transcript_provider
      transcript_model : Option String)
    (num_segments : Option Int) (generate_audio : Option Bool) : ResolvedParams :=
  { speaker_config := pyOrStr speaker_config "ai_researchers"
    outline_provider := pyOrStr outline_provider "openai"
    outline_model := pyOrStr outline_model "gpt-4o-mini"
    transcript_provider := pyOrStr transcript_provider "anthropic"
    transcript_model := pyOrStr transcript_model "claude-3-5-sonnet-latest"
    num_segments := pyOrInt num_segments 3
    generate_audio := generate_audio }

/-- The ways `create_podcast` raises before invoking the workflow graph:
the ValueError checks of graph.py lines 120-127, a failing episode
profile load (line 97), and the reference to the unassigned local
`briefing` on line 126 when an episode profile is used (it is only
assigned in the no-profile branch, line 116). -/
inductive PodcastErr where
  | episodeProfileNotFound
  | missingEpisodeName
  | missingOutputDir
  | missingSpeakerConfig
  | missingBriefing
  | unboundLocalBriefing
deriving DecidableEq, Repr

/-- The data with which `create_podcast` invokes the workflow graph
(`graph.ainvoke`, graph.py line 163): external calls happen only from
this point on. -/
structure GraphInvocation where
  episode_name : String
  output_dir : String
  briefing : String
  params : ResolvedParams
deriving DecidableEq, Repr

/-- Embedding of `create_podcast` from graph.py up to the point where
the workflow graph is invoked: profile loading and parameter resolution
(lines 96-117), then the required-parameter validation (lines 119-127).
A successful result is the graph invocation; every failure is an error
raised before any external call.  `profiles` stands for the
configuration store backing `load_episode_config`; `difficulty_briefing`
is the result of `get_briefing_from_difficulty` (core.py, absent from
the source tree), empty when no briefing is available. -/
def create_podcast (episode_name output_dir : Option String)
    (speaker_config outline_provider outline_model transcript_provider
      transcript_model : Option String)
    (num_segments : Option Int) (episode_profile : Option String)
    (generate_audio : Option Bool)
    (profiles : String → Option EpisodeConfig) (difficulty_briefing : String) :
    Except PodcastErr GraphInvocation :=
  match episode_profile with
  | some pname =>
    match profiles pname with
    | none => .error .episodeProfileNotFound
    | some ep =>
      let r := resolveWithProfile ep speaker_config outline_provider
        outline_model transcript_provider transcript_model num_segments
        generate_audio
      if strFalsy episode_name then .error .missingEpisodeName
      else if strFalsy output_dir then .error .missingOutputDir
      else if r.speaker_config = "" then .error .missingSpeakerConfig
      else .error .unboundLocalBriefing
  | none =>
    let r := resolveWithDefaults speaker_config outline_provider
      outline_model transcript_provider transcript_model num_segments
      generate_audio
    if strFalsy episode_name then .error .missingEpisodeName
    else if strFalsy output_dir then .error .missingOutputDir
    else if r.speaker_config = "" then .error .missingSpeakerConfig
    else if difficulty_briefing = "" then .error .missingBriefing
    else .ok
      { episode_name := episode_name.getD ""
        output_dir := output_dir.getD ""
        briefing := difficulty_briefing
        params := r }

/-- Whether a `create_podcast` outcome reached the workflow graph. -/
def graphInvoked : Except PodcastErr GraphInvocation → Bool
  | .ok _ => true
  | .error _ => false

/-- An episode profile whose generate_audio default is false. -/
def epNoAudio : EpisodeConfig :=
  { speaker_config := "tech_experts"
    outline_provider := "openai"
    outline_model := "gpt-4o-mini"
    transcript_provider := "anthropic"
    transcript_model := "claude-3-5-sonnet-latest"
    num_segments := 4
    generate_audio := false }

/- ===== Content extraction (core.py, not in the source tree) ===== -/

/-- Modelled from the spec: one element of a structured response
sequence handled by `extract_text_content` in core.py (absent from the
source tree): either a mapping that may contain a `text` field, or a
plain text element. -/
inductive ResponsePart where
  | mappingPart (textField : Option String)
  | textPart (s : String)

/-- Modelled from the spec: the shapes a model-response payload may
take: plain text, an ordered sequence of parts, an absent value, or any
other value carried as its string representation. -/
inductive ResponseContent where
  | textContent (s : String)
  | partsContent (l : List ResponsePart)
  | noneContent
  | otherContent (str_repr : String)

/-- The text contributed by one part: the `text` field of a mapping
(mappings lacking it are skipped), or a plain text element as-is. -/
def partText : ResponsePart → String
  | .mappingPart (some t) => t
  | .mappingPart none => ""
  | .textPart s => s

/-- Modelled from the spec: `extract_text_content` from core.py (absent
from the source tree): plain text unchanged; a sequence concatenated in
order; absent value and empty input give empty text; any other value
its string representation. -/
def extract_text_content : ResponseContent → String
  | .textContent s => s
  | .partsContent l => String.join (l.map partText)
  | .noneContent => ""
  | .otherContent r => r

/- ===== Thinking-block parsing (core.py, not in the source tree) ===== -/

/-- The literal opening tag searched for by parse_thinking_content. -/
def openTag : List Char := ['<', 't', 'h', 'i', 'n', 'k', '>']

/-- The literal closing tag searched for by parse_thinking_content. -/
def closeTag : List Char := ['<', '/', 't', 'h', 'i', 'n', 'k', '>']

/-- Index of the first occurrence of `pat` as a contiguous substring of
`s`, if any. -/
def findSubstr (pat : List Char) : List Char → Option Nat
  | [] => if pat.isPrefixOf ([] : List Char) then some 0 else none
  | c :: rest =>
    if pat.isPrefixOf (c :: rest) then some 0
    else (findSubstr pat rest).map (· + 1)

/-- Whether `pat` occurs as a contiguous substring of `s`. -/
def containsSub (pat s : List Char) : Bool :=
  (findSubstr pat s).isSome

/-- Index of the first heuristic start of a structured JSON payload: the
first opening curly brace or square bracket. -/
def findJsonStart : List Char → Option Nat
  | [] => none
  | c :: rest =>
    if c == Char.ofNat 123 || c == Char.ofNat 91 then some 0
    else (findJsonStart rest).map (· + 1)

/-- Removal of leading and trailing whitespace from a character list. -/
def stripChars (s : List Char) : List Char :=
  ((s.dropWhile Char.isWhitespace).reverse.dropWhile Char.isWhitespace).reverse

/-- Modelled from the spec: the scanning core of `parse_thinking_content`
from core.py (absent from the source tree).  Repeatedly locates the next
`<think>` tag; a following `</think>` closes the block, whose interior
is appended to the thinking accumulator while the region is removed from
the cleaned text; an unclosed tag sends the trailing text up to the
first JSON payload boundary (first brace or bracket) to thinking and the
remainder to cleaned, or everything to thinking when no boundary exists.
The fuel argument bounds the recursion; callers pass the input length,
which the consumed tag characters keep sufficient. -/
def parseThinkAux : Nat → List Char → List Char × List Char
  | 0, s => ([], s)
  | fuel + 1, s =>
    match findSubstr openTag s with
    | none => ([], s)
    | some i =>
      let pre := s.take i
      let rest := s.drop (i + 7)
      match findSubstr closeTag rest with
      | some j =>
        let out := parseThinkAux fuel (rest.drop (j + 8))
        (rest.take j ++ out.1, pre ++ out.2)
      | none =>
        match findJsonStart rest with
        | some k => (rest.take k, pre ++ rest.drop k)
        | none => (rest, pre)

/-- Modelled from the spec: `parse_thinking_content` from core.py
(absent from the source tree): non-text input yields two empty results;
otherwise the scan above runs and the accumulated thinking is stripped
of leading/trailing whitespace. -/
def parse_thinking_content : Option (List Char) → List Char × List Char
  | none => ([], [])
  | some s =>
    let r := parseThinkAux (s.length + 1) s
    (stripChars r.1, r.2)

/-- Modelled from the spec: the convenience wrapper returning only the
cleaned text. -/
def clean_thinking_content (raw : Option (List Char)) : List Char :=
  (parse_thinking_content raw).2

/-- A decomposition of a text into plain runs and think blocks: each
pair holds the plain text before a block and the block's interior, and
`last` is the trailing plain text. -/
def renderDoc : List (List Char × List Char) → List Char → List Char
  | [], last => last
  | (p, i) :: rest, last =>
    p ++ (openTag ++ (i ++ (closeTag ++ renderDoc rest last)))

/-- The concatenation of all block interiors of a decomposition, in
document order. -/
def docInners : List (List Char × List Char) → List Char
  | [] => []
  | (_, i) :: rest => i ++ docInners rest

/-- The surrounding text of a decomposition: all plain runs rejoined in
document order. -/
def docOutside : List (List Char × List Char) → List Char → List Char
  | [], last => last
  | (p, _) :: rest, last => p ++ docOutside rest last

/-- The plain text before the block of the counterexample input. -/
def cexPre : List Char := ['<', 't', 'h', 'i']

/-- The block interior of the counterexample input. -/
def cexInner : List Char := ['X']

/-- The trailing plain text of the counterexample input. -/
def cexLast : List Char := ['n', 'k', '>', 'd', 'o', 'n', 'e']

/-- The counterexample input: one balanced think block between two plain
runs that recombine to an opening tag once the block is removed. -/
def cexInput : List Char :=
  ['<', 't', 'h', 'i',
   '<', 't', 'h', 'i', 'n', 'k', '>',
   'X',
   '<', '/', 't', 'h', 'i', 'n', 'k', '>',
   'n', 'k', '>', 'd', 'o', 'n', 'e']

/- ===== Theorems ===== -/

/-- Characterization of the status-code test: it holds exactly on a
present status in [400, 500) other than 429. -/
theorem statusNonRetryable_iff (st : Option Int) :
    statusNonRetryable st = true ↔
      ∃ s, st = some s ∧ 400 ≤ s ∧ s < 500 ∧ s ≠ 429 := by
  cases st with
  | none => simp [statusNonRetryable]
  | some s =>
    simp only [statusNonRetryable]
    by_cases h : 400 ≤ s ∧ s < 500 ∧ s ≠ 429
    · rw [if_pos h]
      constructor
      · intro _
        exact ⟨s, rfl, h.1, h.2.1, h.2.2⟩
      · intro _
        rfl
    · rw [if_neg h]
      constructor
      · intro hc
        exact Bool.noConfusion hc
      · rintro ⟨s', hs', h1, h2, h3⟩
        injection hs' with hss
        exact absurd ⟨by omega, by omega, by omega⟩ h

/-- C1: the retry policy classifies an exception as not retryable if and
only if it is one of the programming/input-error kinds, or it carries an
HTTP-style status_code in [400, 500) other than 429; all other
exceptions (429, 5xx, no status code) are retryable. -/
theorem retry_classification (e : PyExc) :
    _is_retryable e = false ↔
      (isNonRetryableKind e.kind = true ∨
        ∃ s, e.status_code = some s ∧ 400 ≤ s ∧ s < 500 ∧ s ≠ 429) := by
  rcases e with ⟨k, st, m⟩
  simp only [_is_retryable]
  cases hk : isNonRetryableKind k
  · simp only [Bool.false_eq_true, if_false, false_or]
    by_cases hs : statusNonRetryable st = true
    · rw [if_pos hs]
      exact iff_of_true rfl ((statusNonRetryable_iff st).mp hs)
    · rw [if_neg hs]
      constructor
      · intro hc
        exact Bool.noConfusion hc
      · intro hex
        exact absurd ((statusNonRetryable_iff st).mpr hex) hs
  · simp [hk]

/-- C6 counterexample: with no override map and no environment
configuration, the effective `wait_multiplier` is 5, not 2 as the claim
states (retry.py line 14 sets `DEFAULT_WAIT_MULTIPLIER = 5`). -/
theorem retry_defaults_counterexample :
    (get_retry_config none (fun _ => none)).wait_multiplier = 5 ∧
      ¬ (get_retry_config none (fun _ => none)).wait_multiplier = 2 := by
  constructor
  · rfl
  · intro h
    exact absurd h (by decide)

/-- C6 (amended): with no override map and no environment configuration,
the retry policy's effective settings are exactly max_attempts = 3,
wait_multiplier = 5, and wait_max = 30 seconds. -/
theorem retry_defaults :
    get_retry_config none (fun _ => none) =
      { max_attempts := 3, wait_multiplier := 5, wait_max := 30 } := by
  rfl

/-- C10: a non-empty runtime argument is returned as-is regardless of the
environment; an empty runtime argument disables the proxy even when
environment variables are set; an absent runtime argument yields the
first non-empty value among PODCAST_CREATOR_PROXY, HTTP_PROXY and
HTTPS_PROXY in that order, and no proxy when none is set non-empty. -/
theorem proxy_resolution :
    (∀ (r : String) (env : String → Option String), r ≠ "" →
      get_proxy (some r) env = some r)
  ∧ (∀ env : String → Option String, get_proxy (some "") env = none)
  ∧ (∀ (env : String → Option String) (v : String),
      env "PODCAST_CREATOR_PROXY" = some v → v ≠ "" →
      get_proxy none env = some v)
  ∧ (∀ (env : String → Option String) (v : String),
      strTruthy (env "PODCAST_CREATOR_PROXY") = none →
      env "HTTP_PROXY" = some v → v ≠ "" →
      get_proxy none env = some v)
  ∧ (∀ (env : String → Option String) (v : String),
      strTruthy (env "PODCAST_CREATOR_PROXY") = none →
      strTruthy (env "HTTP_PROXY") = none →
      env "HTTPS_PROXY" = some v → v ≠ "" →
      get_proxy none env = some v)
  ∧ (∀ env : String → Option String,
      strTruthy (env "PODCAST_CREATOR_PROXY") = none →
      strTruthy (env "HTTP_PROXY") = none →
      strTruthy (env "HTTPS_PROXY") = none →
      get_proxy none env = none) := by
  refine ⟨?_, ?_, ?_, ?_, ?_, ?_⟩
  · intro r env hr
    simp [get_proxy, hr]
  · intro env
    simp [get_proxy]
  · intro env v hv hne
    simp [get_proxy, strTruthy, hv, hne]
  · intro env v h1 hv hne
    have h2 : strTruthy (env "HTTP_PROXY") = some v := by
      rw [hv]
      simp [strTruthy, hne]
    simp [get_proxy, h1, h2]
  · intro env v h1 h2 hv hne
    have h3 : strTruthy (env "HTTPS_PROXY") = some v := by
      rw [hv]
      simp [strTruthy, hne]
    simp [get_proxy, h1, h2, h3]
  · intro env h1 h2 h3
    simp [get_proxy, h1, h2, h3]

/-- C10 witness: the theorem instantiated at a concrete environment
holding only HTTP_PROXY, and at a concrete runtime argument. -/
theorem proxy_resolution_witness :
    get_proxy (some "http://runtime:8080")
        (fun n => if n = "HTTP_PROXY" then some "http://envp:1" else none)
      = some "http://runtime:8080"
  ∧ get_proxy none
        (fun n => if n = "HTTP_PROXY" then some "http://envp:1" else none)
      = some "http://envp:1" := by
  constructor
  · exact proxy_resolution.1 "http://runtime:8080"
      (fun n => if n = "HTTP_PROXY" then some "http://envp:1" else none)
      (by decide)
  · exact proxy_resolution.2.2.2.1
      (fun n => if n = "HTTP_PROXY" then some "http://envp:1" else none)
      "http://envp:1" (by decide) (by decide) (by decide)

/-- Unrolling of the retry loop: a successful call ends the loop. -/
theorem retryGo_step_ok {A : Type} (f : Nat → Except PyExc A) (r idx : Nat) (v : A)
    (h : f idx = .ok v) : retryGo f (r + 2) idx = (.ok v, idx + 1) := by
  simp [retryGo, h]

/-- Unrolling of the retry loop: a retryable exception with attempts
remaining leads to the next attempt. -/
theorem retryGo_step_err_retry {A : Type} (f : Nat → Except PyExc A) (r idx : Nat)
    (e : PyExc) (h : f idx = .error e) (hr : _is_retryable e = true) :
    retryGo f (r + 2) idx = retryGo f (r + 1) (idx + 1) := by
  simp [retryGo, h, hr]

/-- Unrolling of the retry loop: a non-retryable exception is raised
immediately. -/
theorem retryGo_step_err_stop {A : Type} (f : Nat → Except PyExc A) (r idx : Nat)
    (e : PyExc) (h : f idx = .error e) (hr : _is_retryable e = false) :
    retryGo f (r + 2) idx = (.error e, idx + 1) := by
  simp [retryGo, h, hr]

/-- Unrolling of the retry loop: on the last allowed attempt the call's
outcome is final (reraise returns the original exception). -/
theorem retryGo_last {A : Type} (f : Nat → Except PyExc A) (idx : Nat) :
    retryGo f 1 idx = (f idx, idx + 1) := rfl

/-- C2 (amended): with max_attempts = 3, a function that always raises an
exception with status 404 is called exactly once and that exception
propagates unchanged; a function that always raises an exception of
non-programming-error kind with status 500 is called exactly three times
and the most recent exception is re-raised unchanged; a function raising
retryable errors on its first two calls and succeeding on the third is
called exactly three times and the success value is returned. -/
theorem retry_decorator_attempts :
    (∀ (A : Type) (e : PyExc), e.status_code = some 404 →
      runRetry 3 (fun _ => (Except.error e : Except PyExc A)) = (Except.error e, 1))
  ∧ (∀ (A : Type) (e : PyExc), e.status_code = some 500 →
      isNonRetryableKind e.kind = false →
      runRetry 3 (fun _ => (Except.error e : Except PyExc A)) = (Except.error e, 3))
  ∧ (∀ (A : Type) (f : Nat → Except PyExc A) (e0 e1 : PyExc) (v : A),
      f 0 = .error e0 → f 1 = .error e1 →
      _is_retryable e0 = true → _is_retryable e1 = true → f 2 = .ok v →
      runRetry 3 f = (.ok v, 3)) := by
  refine ⟨?_, ?_, ?_⟩
  · intro A e h
    have hst : statusNonRetryable (some 404) = true := by decide
    have hr : _is_retryable e = false := by
      cases hk : isNonRetryableKind e.kind
      · simp [_is_retryable, hk, h, hst]
      · simp [_is_retryable, hk]
    have e1 : runRetry 3 (fun _ => (Except.error e : Except PyExc A)) =
        retryGo (fun _ => (Except.error e : Except PyExc A)) (1 + 2) 0 := rfl
    rw [e1, retryGo_step_err_stop _ 1 0 e rfl hr]
  · intro A e h hk
    have hst : statusNonRetryable (some 500) = false := by decide
    have hr : _is_retryable e = true := by
      simp [_is_retryable, hk, h, hst]
    have e1 : runRetry 3 (fun _ => (Except.error e : Except PyExc A)) =
        retryGo (fun _ => (Except.error e : Except PyExc A)) (1 + 2) 0 := rfl
    rw [e1, retryGo_step_err_retry _ 1 0 e rfl hr]
    have e2 : retryGo (fun _ => (Except.error e : Except PyExc A)) (1 + 1) (0 + 1) =
        retryGo (fun _ => (Except.error e : Except PyExc A)) (0 + 2) 1 := rfl
    rw [e2, retryGo_step_err_retry _ 0 1 e rfl hr]
    have e3 : retryGo (fun _ => (Except.error e : Except PyExc A)) (0 + 1) (1 + 1) =
        retryGo (fun _ => (Except.error e : Except PyExc A)) 1 2 := rfl
    rw [e3, retryGo_last]
  · intro A f e0 e1 v h0 h1 hr0 hr1 h2
    have s1 : runRetry 3 f = retryGo f (1 + 2) 0 := rfl
    rw [s1, retryGo_step_err_retry f 1 0 e0 h0 hr0]
    have s2 : retryGo f (1 + 1) (0 + 1) = retryGo f (0 + 2) 1 := rfl
    rw [s2, retryGo_step_err_retry f 0 1 e1 h1 hr1]
    have s3 : retryGo f (0 + 1) (1 + 1) = retryGo f 1 2 := rfl
    rw [s3, retryGo_last, h2]

/-- C2 witness: the theorem applied to the three concrete scenarios of
the retry tests (a 404 NotFoundError, a 500 ServerError, and a function
rate-limited twice before succeeding). -/
theorem retry_decorator_attempts_witness :
    runRetry 3 (fun _ => (Except.error notFoundE : Except PyExc Nat)) = (Except.error notFoundE, 1)
  ∧ runRetry 3 (fun _ => (Except.error serverE : Except PyExc Nat)) = (Except.error serverE, 3)
  ∧ runRetry 3 flakyF = (Except.ok 42, 3) :=
  ⟨retry_decorator_attempts.1 Nat notFoundE rfl,
   retry_decorator_attempts.2.1 Nat serverE rfl rfl,
   retry_decorator_attempts.2.2 Nat flakyF rateLimE rateLimE 42 rfl rfl
     (by decide) (by decide) rfl⟩

/-- C2 counterexample: a function always raising a ValueError that
carries status_code 500 is called exactly once, not max_attempts = 3
times, because the isinstance check in `_is_retryable` takes precedence
over the status code. -/
theorem retry_decorator_counterexample :
    runRetry 3 (fun _ => (Except.error valueErr500 : Except PyExc Nat)) =
      (Except.error valueErr500, 1)
  ∧ (1 : Nat) ≠ 3 := by
  constructor
  · rfl
  · decide

/-- Lookup in an association list after the per-entry override map of
`mergeConfig`: each value is replaced by the override's value for its
key when present. -/
theorem lookup_map_override {V : Type} (ov l : List (String × V)) (k : String) :
    List.lookup k (l.map (fun kv => (kv.1, (List.lookup kv.1 ov).getD kv.2)))
      = (List.lookup k l).map (fun v0 => (List.lookup k ov).getD v0) := by
  induction l with
  | nil => simp
  | cons a t ih =>
    rcases a with ⟨ka, va⟩
    simp only [List.map_cons, List.lookup]
    cases hbe : k == ka
    · simpa [hbe] using ih
    · have hk : k = ka := by
        exact eq_of_beq hbe
      subst hk
      simp [hbe]

/-- Lookup commutes with a filter whose predicate holds on every entry
carrying the looked-up key. -/
theorem lookup_filter_keyTrue {V : Type} (q : String × V → Bool)
    (l : List (String × V)) (k : String) (hq : ∀ v : V, q (k, v) = true) :
    List.lookup k (l.filter q) = List.lookup k l := by
  induction l with
  | nil => rfl
  | cons a t ih =>
    rcases a with ⟨ka, va⟩
    by_cases hk : k = ka
    · subst hk
      rw [List.filter_cons, hq va]
      simp only [if_true, List.lookup, beq_self_eq_true]
    · have hbe : (k == ka) = false := by
        exact beq_eq_false_iff_ne.mpr hk
      rw [List.filter_cons]
      cases hq2 : q (ka, va)
      · simp only [Bool.false_eq_true, if_false]
        rw [ih]
        simp [List.lookup, hbe]
      · simp only [if_true, List.lookup, hbe]
        exact ih

/-- Lookup distributes over list append, preferring the left list. -/
theorem lookup_append {V : Type} (l1 l2 : List (String × V)) (k : String) :
    List.lookup k (l1 ++ l2)
      = match List.lookup k l1 with
        | some v => some v
        | none => List.lookup k l2 := by
  induction l1 with
  | nil => simp [List.lookup]
  | cons a t ih =>
    rcases a with ⟨ka, va⟩
    simp only [List.cons_append, List.lookup]
    cases k == ka
    · exact ih
    · rfl

/-- C3: the call-config merge used for the outline and transcript stages
is a shallow per-key merge: it agrees with the base on every key absent
from the override map, agrees with the override on every key present in
it (including keys not in the base), and an empty or absent override
map yields the base unchanged. -/
theorem call_config_merge {V : Type} (base ov : List (String × V)) (k : String) :
    (List.lookup k ov = none →
      List.lookup k (mergeConfig base ov) = List.lookup k base)
  ∧ (∀ v, List.lookup k ov = some v →
      List.lookup k (mergeConfig base ov) = some v)
  ∧ mergeConfig base [] = base
  ∧ resolveCallConfig base none = base := by
  have hmain : ∀ hov : Option V, List.lookup k ov = hov →
      List.lookup k (mergeConfig base ov)
        = match hov with
          | some v => some v
          | none => List.lookup k base := by
    intro hov hhov
    unfold mergeConfig
    rw [lookup_append, lookup_map_override]
    cases hb : List.lookup k base with
    | some v0 =>
      simp only [Option.map_some']
      cases hov with
      | some v => simp [hhov]
      | none => simp [hhov]
    | none =>
      simp only [Option.map_none']
      rw [lookup_filter_keyTrue]
      · cases hov with
        | some v => simp [hhov]
        | none => simp [hhov]
      · intro v
        simp [hb]
  have hempty : mergeConfig base [] = base := by
    unfold mergeConfig
    simp [List.lookup]
  refine ⟨?_, ?_, hempty, ?_⟩
  · intro h
    simpa using hmain none h
  · intro v h
    simpa using hmain (some v) h
  · show mergeConfig base ((none : Option (List (String × V))).getD []) = base
    exact hempty

/-- C3 witness: the theorem at the outline stage's base map with an
override that changes max_tokens, at each kind of key. -/
theorem call_config_merge_witness :
    List.lookup "structured" (mergeConfig [("max_tokens", 3000), ("structured", 1)]
        [("max_tokens", 6000), ("temperature", 7)])
      = List.lookup "structured" [("max_tokens", 3000), ("structured", 1)]
  ∧ List.lookup "max_tokens" (mergeConfig [("max_tokens", 3000), ("structured", 1)]
        [("max_tokens", 6000), ("temperature", 7)])
      = some 6000
  ∧ mergeConfig [("max_tokens", 3000), ("structured", 1)] ([] : List (String × Int))
      = [("max_tokens", 3000), ("structured", 1)] :=
  ⟨(call_config_merge [("max_tokens", 3000), ("structured", 1)]
      [("max_tokens", 6000), ("temperature", 7)] "structured").1 (by decide),
   (call_config_merge [("max_tokens", 3000), ("structured", 1)]
      [("max_tokens", 6000), ("temperature", 7)] "max_tokens").2.1 6000 (by decide),
   (call_config_merge [("max_tokens", 3000), ("structured", 1)]
      ([] : List (String × Int)) "max_tokens").2.2.1⟩

/-- C4: the effective TTS config used for a speaker's audio clips is the
speaker's own tts_config whenever present — including an explicitly
empty map, which never falls back to the profile's — and is the
profile-level tts_config exactly when the speaker's is absent; the
replacement is wholesale, with no key-level merging. -/
theorem per_speaker_tts_override {V : Type} (prof : SpeakerProfile V) (idx : Nat)
    (d : DialogueTurn) (sp : Speaker V) (info : DialogueInfo V)
    (hfind : prof.speakers.find? (fun s => s.name == d.speaker) = some sp)
    (hinfo : buildDialogueInfo prof idx d = some info) :
    (∀ c, sp.tts_config = some c → info.tts_config = some c)
  ∧ (sp.tts_config = some [] → info.tts_config = some [])
  ∧ (sp.tts_config = none → info.tts_config = prof.tts_config) := by
  unfold buildDialogueInfo at hinfo
  rw [hfind] at hinfo
  simp only [Option.map_some', Option.some.injEq] at hinfo
  refine ⟨?_, ?_, ?_⟩
  · intro c hc
    rw [← hinfo]
    simp [effective_tts_config, hc]
  · intro hc
    rw [← hinfo]
    simp [effective_tts_config, hc]
  · intro hc
    rw [← hinfo]
    simp [effective_tts_config, hc]

/-- C4 witness: the theorem applied to a profile holding a speaker with
an explicitly empty tts_config and a speaker with no override. -/
theorem per_speaker_tts_override_witness :
    wAliceInfo.tts_config = some []
  ∧ wBobInfo.tts_config = wProfile.tts_config :=
  ⟨(per_speaker_tts_override wProfile 0 ⟨"Alice", "Hello"⟩ wAlice wAliceInfo
      rfl rfl).2.1 rfl,
   (per_speaker_tts_override wProfile 1 ⟨"Bob", "Hi"⟩ wBob wBobInfo
      rfl rfl).2.2 rfl⟩

/-- C9: extract_text_content is idempotent on text and text-sequence
inputs — feeding its output back in as plain text returns it unchanged —
and plain text input is returned unchanged. -/
theorem extract_text_content_idempotent (s : String) (l : List ResponsePart) :
    extract_text_content (.textContent (extract_text_content (.textContent s)))
      = extract_text_content (.textContent s)
  ∧ extract_text_content (.textContent (extract_text_content (.partsContent l)))
      = extract_text_content (.partsContent l)
  ∧ extract_text_content (.textContent s) = s :=
  ⟨rfl, rfl, rfl⟩

/-- C7 (amended): with an episode profile, each of speaker_config,
outline_provider, outline_model, transcript_provider, transcript_model
and num_segments left unset takes the profile's value, and a supplied
truthy value (non-empty string, non-zero count) is kept; because the
resolution uses Python `or`, generate_audio — whose caller default is
True rather than unset — resolves to True whenever the caller's value
is True, and takes the profile's value exactly when the caller passes
False or None. -/
theorem episode_profile_fill (ep : EpisodeConfig)
    (sc op om tp tm : Option String) (ns : Option Int) (ga : Option Bool) :
    ((sc = none →
        (resolveWithProfile ep sc op om tp tm ns ga).speaker_config
          = ep.speaker_config)
      ∧ ∀ s, s ≠ "" → sc = some s →
        (resolveWithProfile ep sc op om tp tm ns ga).speaker_config = s)
  ∧ ((op = none →
        (resolveWithProfile ep sc op om tp tm ns ga).outline_provider
          = ep.outline_provider)
      ∧ ∀ s, s ≠ "" → op = some s →
        (resolveWithProfile ep sc op om tp tm ns ga).outline_provider = s)
  ∧ ((om = none →
        (resolveWithProfile ep sc op om tp tm ns ga).outline_model
          = ep.outline_model)
      ∧ ∀ s, s ≠ "" → om = some s →
        (resolveWithProfile ep sc op om tp tm ns ga).outline_model = s)
  ∧ ((tp = none →
        (resolveWithProfile ep sc op om tp tm ns ga).transcript_provider
          = ep.transcript_provider)
      ∧ ∀ s, s ≠ "" → tp = some s →
        (resolveWithProfile ep sc op om tp tm ns ga).transcript_provider = s)
  ∧ ((tm = none →
        (resolveWithProfile ep sc op om tp tm ns ga).transcript_model
          = ep.transcript_model)
      ∧ ∀ s, s ≠ "" → tm = some s →
        (resolveWithProfile ep sc op om tp tm ns ga).transcript_model = s)
  ∧ ((ns = none →
        (resolveWithProfile ep sc op om tp tm ns ga).num_segments
          = ep.num_segments)
      ∧ ∀ n, n ≠ 0 → ns = some n →
        (resolveWithProfile ep sc op om tp tm ns ga).num_segments = n)
  ∧ (ga = some true →
      (resolveWithProfile ep sc op om tp tm ns ga).generate_audio = some true)
  ∧ (ga = some false →
      (resolveWithProfile ep sc op om tp tm ns ga).generate_audio
        = some ep.generate_audio)
  ∧ (ga = none →
      (resolveWithProfile ep sc op om tp tm ns ga).generate_audio
        = some ep.generate_audio) := by
  refine ⟨⟨?_, ?_⟩, ⟨?_, ?_⟩, ⟨?_, ?_⟩, ⟨?_, ?_⟩, ⟨?_, ?_⟩, ⟨?_, ?_⟩, ?_, ?_, ?_⟩
  · intro h
    subst h
    simp [resolveWithProfile, pyOrStr]
  · intro s hs h
    subst h
    simp [resolveWithProfile, pyOrStr, hs]
  · intro h
    subst h
    simp [resolveWithProfile, pyOrStr]
  · intro s hs h
    subst h
    simp [resolveWithProfile, pyOrStr, hs]
  · intro h
    subst h
    simp [resolveWithProfile, pyOrStr]
  · intro s hs h
    subst h
    simp [resolveWithProfile, pyOrStr, hs]
  · intro h
    subst h
    simp [resolveWithProfile, pyOrStr]
  · intro s hs h
    subst h
    simp [resolveWithProfile, pyOrStr, hs]
  · intro h
    subst h
    simp [resolveWithProfile, pyOrStr]
  · intro s hs h
    subst h
    simp [resolveWithProfile, pyOrStr, hs]
  · intro h
    subst h
    simp [resolveWithProfile, pyOrInt]
  · intro n hn h
    subst h
    simp [resolveWithProfile, pyOrInt, hn]
  · intro h
    subst h
    simp [resolveWithProfile, pyOrBool]
  · intro h
    subst h
    simp [resolveWithProfile, pyOrBool]
  · intro h
    subst h
    simp [resolveWithProfile, pyOrBool]

/-- C7 witness: the theorem applied to a profile, with a supplied
speaker_config kept, an unset outline_provider filled from the profile,
and an explicit generate_audio = false taking the profile's value. -/
theorem episode_profile_fill_witness :
    (resolveWithProfile epNoAudio (some "voices") none none none none none
        (some false)).speaker_config = "voices"
  ∧ (resolveWithProfile epNoAudio (some "voices") none none none none none
        (some false)).outline_provider = epNoAudio.outline_provider
  ∧ (resolveWithProfile epNoAudio (some "voices") none none none none none
        (some false)).generate_audio = some epNoAudio.generate_audio :=
  ⟨(episode_profile_fill epNoAudio (some "voices") none none none none none
      (some false)).1.2 "voices" (by decide) rfl,
   (episode_profile_fill epNoAudio (some "voices") none none none none none
      (some false)).2.1.1 rfl,
   (episode_profile_fill epNoAudio (some "voices") none none none none none
      (some false)).2.2.2.2.2.2.2.1 rfl⟩

/-- C7 counterexample: a caller that leaves generate_audio unset (the
Python signature's default is True) does not take the profile's value:
with a profile whose generate_audio is false, the resolved value is
True, because line 106 of graph.py computes
`generate_audio or episode_config.generate_audio` on the default True. -/
theorem episode_profile_fill_counterexample :
    (resolveWithProfile epNoAudio none none none none none none
        (some true)).generate_audio = some true
  ∧ some true ≠ some epNoAudio.generate_audio := by
  constructor
  · rfl
  · decide

/-- C8: a call to create_podcast with a required parameter missing —
episode_name absent or empty, output_dir absent or empty, or the
speaker profile name unavailable both directly and via the episode
profile — fails with an error raised before the workflow graph is
invoked (no external call is made). -/
theorem create_podcast_fail_fast :
    (∀ (en od sc op om tp tm : Option String) (ns : Option Int)
        (epf : Option String) (ga : Option Bool)
        (profiles : String → Option EpisodeConfig) (db : String),
      strFalsy en = true →
      graphInvoked (create_podcast en od sc op om tp tm ns epf ga profiles db)
        = false)
  ∧ (∀ (en od sc op om tp tm : Option String) (ns : Option Int)
        (epf : Option String) (ga : Option Bool)
        (profiles : String → Option EpisodeConfig) (db : String),
      strFalsy od = true →
      graphInvoked (create_podcast en od sc op om tp tm ns epf ga profiles db)
        = false)
  ∧ (∀ (en od sc op om tp tm : Option String) (ns : Option Int)
        (pname : String) (ga : Option Bool)
        (profiles : String → Option EpisodeConfig) (db : String)
        (ep : EpisodeConfig),
      profiles pname = some ep → strFalsy sc = true → ep.speaker_config = "" →
      graphInvoked
          (create_podcast en od sc op om tp tm ns (some pname) ga profiles db)
        = false) := by
  refine ⟨?_, ?_, ?_⟩
  · intro en od sc op om tp tm ns epf ga profiles db h
    cases epf with
    | none => simp [create_podcast, h, graphInvoked]
    | some pname =>
      cases hpp : profiles pname with
      | none => simp [create_podcast, hpp, graphInvoked]
      | some ep => simp [create_podcast, hpp, h, graphInvoked]
  · intro en od sc op om tp tm ns epf ga profiles db h
    cases epf with
    | none =>
      cases hen : strFalsy en
      · simp [create_podcast, hen, h, graphInvoked]
      · simp [create_podcast, hen, graphInvoked]
    | some pname =>
      cases hpp : profiles pname with
      | none => simp [create_podcast, hpp, graphInvoked]
      | some ep =>
        cases hen : strFalsy en
        · simp [create_podcast, hpp, hen, h, graphInvoked]
        · simp [create_podcast, hpp, hen, graphInvoked]
  · intro en od sc op om tp tm ns pname ga profiles db ep hpp hsc hep
    simp only [create_podcast, hpp]
    split
    · rfl
    · split
      · rfl
      · split
        · rfl
        · rfl

/-- An episode profile that does not supply a speaker configuration. -/
def epNoSpeaker : EpisodeConfig :=
  { speaker_config := ""
    outline_provider := "openai"
    outline_model := "gpt-4o-mini"
    transcript_provider := "anthropic"
    transcript_model := "claude-3-5-sonnet-latest"
    num_segments := 3
    generate_audio := true }

/-- C8 witness: the theorem applied to concrete calls missing the
episode name, the output directory, and the speaker configuration. -/
theorem create_podcast_fail_fast_witness :
    graphInvoked (create_podcast none (some "out") none none none none none
        none none none (fun _ => none) "brief") = false
  ∧ graphInvoked (create_podcast (some "ep1") none none none none none none
        none none none (fun _ => none) "brief") = false
  ∧ graphInvoked (create_podcast (some "ep1") (some "out") none none none
        none none none (some "prof") none (fun _ => some epNoSpeaker) "brief")
      = false :=
  ⟨create_podcast_fail_fast.1 none (some "out") none none none none none
      none none none (fun _ => none) "brief" rfl,
   create_podcast_fail_fast.2.1 (some "ep1") none none none none none none
      none none none (fun _ => none) "brief" rfl,
   create_podcast_fail_fast.2.2 (some "ep1") (some "out") none none none
      none none none "prof" none (fun _ => some epNoSpeaker) "brief"
      epNoSpeaker rfl rfl rfl⟩

/-- A pattern occurring as an infix is found by the substring search. -/
theorem infix_isSome (pat s : List Char) (h : pat <:+: s) :
    (findSubstr pat s).isSome = true := by
  induction s with
  | nil =>
    have hp : pat = [] := List.infix_nil.mp h
    subst hp
    simp [findSubstr, List.isPrefixOf]
  | cons c rest ih =>
    simp only [findSubstr]
    by_cases hp : pat.isPrefixOf (c :: rest)
    · simp [hp]
    · rcases List.infix_cons_iff.mp h with hpre | hinf
      · exact absurd (List.isPrefixOf_iff_prefix.mpr hpre) hp
      · have := ih hinf
        cases hf : findSubstr pat rest
        · rw [hf] at this
          exact absurd this (by simp)
        · simp [hp, hf]

/-- A pattern reported absent by `containsSub` is not an infix. -/
theorem not_infix_of_not_contains (pat s : List Char)
    (h : containsSub pat s = false) : ¬ pat <:+: s := by
  intro hinf
  have hs := infix_isSome pat s hinf
  unfold containsSub at h
  rw [hs] at h
  exact Bool.noConfusion h

/-- A pattern reported absent by `containsSub` is not found. -/
theorem findSubstr_eq_none_of_not_contains (pat s : List Char)
    (h : containsSub pat s = false) : findSubstr pat s = none := by
  unfold containsSub at h
  cases hf : findSubstr pat s
  · rfl
  · rw [hf] at h
    exact Bool.noConfusion h

/-- A borderless pattern absent from `q` is not a prefix of
`q ++ pat ++ rest`: a prefix occurrence would either lie inside `q` or
overlap the real occurrence of `pat`, forcing a border. -/
theorem not_prefix_append_pat (pat q rest : List Char)
    (hq0 : q ≠ [])
    (hnb : ∀ b, b < pat.length → 0 < b →
      pat.drop (pat.length - b) ≠ pat.take b)
    (hq : ¬ pat <:+: q) :
    ¬ pat <+: (q ++ (pat ++ rest)) := by
  intro hpre
  have hpat : pat = (q ++ (pat ++ rest)).take pat.length :=
    List.prefix_iff_eq_take.mp hpre
  rcases le_or_lt pat.length q.length with hle | hlt
  · rw [List.take_append_eq_append_take, Nat.sub_eq_zero_of_le hle] at hpat
    simp only [List.take_zero, List.append_nil] at hpat
    have : pat <+: q := by
      rw [hpat]
      exact List.take_prefix _ _
    exact hq this.isInfix
  · have hq1 : 0 < q.length := List.length_pos.mpr hq0
    have hb0 : 0 < pat.length - q.length := by omega
    have hbl : pat.length - q.length < pat.length := by omega
    have h5 : (pat ++ rest).take (pat.length - q.length)
        = pat.take (pat.length - q.length) := by
      rw [List.take_append_eq_append_take,
        Nat.sub_eq_zero_of_le (by omega : pat.length - q.length ≤ pat.length),
        List.take_zero, List.append_nil]
    rw [List.take_append_eq_append_take,
      List.take_of_length_le (le_of_lt hlt), h5] at hpat
    have hdrop : pat.drop q.length = pat.take (pat.length - q.length) := by
      conv_lhs => rw [hpat]
      rw [List.drop_left]
    have hql : pat.length - (pat.length - q.length) = q.length := by omega
    refine absurd ?_ (hnb (pat.length - q.length) hbl hb0)
    rw [hql]
    exact hdrop

/-- The substring search finds a borderless pattern exactly at its first
genuine occurrence: `q.length` in `q ++ pat ++ rest` when `pat` does not
occur in `q`. -/
theorem findSubstr_at_append (pat q rest : List Char)
    (hpat : pat ≠ [])
    (hnb : ∀ b, b < pat.length → 0 < b →
      pat.drop (pat.length - b) ≠ pat.take b)
    (hq : ¬ pat <:+: q) :
    findSubstr pat (q ++ (pat ++ rest)) = some q.length := by
  induction q with
  | nil =>
    rcases List.exists_cons_of_ne_nil hpat with ⟨c, pt, hc⟩
    subst hc
    simp only [List.nil_append, List.cons_append, findSubstr, List.length_nil]
    rw [if_pos]
    exact List.isPrefixOf_iff_prefix.mpr (List.prefix_append (c :: pt) rest)
  | cons a q' ih =>
    have hq' : ¬ pat <:+: q' := fun hi => hq (List.infix_cons hi)
    have hnp : ¬ pat.isPrefixOf (a :: (q' ++ (pat ++ rest))) = true := by
      intro hP
      exact not_prefix_append_pat pat (a :: q') rest (by simp) hnb hq
        (List.isPrefixOf_iff_prefix.mp hP)
    have hstep : findSubstr pat ((a :: q') ++ (pat ++ rest))
        = (findSubstr pat (q' ++ (pat ++ rest))).map (· + 1) := by
      show (if pat.isPrefixOf (a :: (q' ++ (pat ++ rest))) then some 0
          else (findSubstr pat (q' ++ (pat ++ rest))).map (· + 1))
        = (findSubstr pat (q' ++ (pat ++ rest))).map (· + 1)
      rw [if_neg hnp]
    rw [hstep, ih hq']
    rfl

/-- The opening tag has no border: no nonempty proper suffix of it is
also a prefix, so occurrences of it cannot overlap. -/
theorem openTag_noBorder : ∀ b, b < openTag.length → 0 < b →
    openTag.drop (openTag.length - b) ≠ openTag.take b := by decide

/-- The closing tag has no border. -/
theorem closeTag_noBorder : ∀ b, b < closeTag.length → 0 < b →
    closeTag.drop (closeTag.length - b) ≠ closeTag.take b := by decide

/-- The scanner on a rendered balanced decomposition: with sufficient
fuel it returns exactly the concatenated block interiors and the
rejoined surrounding text. -/
theorem parseThinkAux_renderDoc (segs : List (List Char × List Char)) :
    ∀ (fuel : Nat) (last : List Char),
    (renderDoc segs last).length ≤ fuel →
    (∀ pi ∈ segs, containsSub openTag pi.1 = false ∧
      containsSub openTag pi.2 = false ∧ containsSub closeTag pi.2 = false) →
    containsSub openTag last = false →
    parseThinkAux fuel (renderDoc segs last)
      = (docInners segs, docOutside segs last) := by
  induction segs with
  | nil =>
    intro fuel last hfuel hwf hlast
    cases fuel with
    | zero =>
      have hl : last = [] := by
        simp only [renderDoc] at hfuel
        exact List.eq_nil_of_length_eq_zero (Nat.le_zero.mp hfuel)
      subst hl
      rfl
    | succ f =>
      simp only [renderDoc, docInners, docOutside, parseThinkAux,
        findSubstr_eq_none_of_not_contains openTag last hlast]
  | cons pi0 segs' ih =>
    rcases pi0 with ⟨p, i⟩
    intro fuel last hfuel hwf hlast
    have hp := (hwf (p, i) (by simp)).1
    have hic := (hwf (p, i) (by simp)).2.2
    have hwf' : ∀ pi ∈ segs', containsSub openTag pi.1 = false ∧
        containsSub openTag pi.2 = false ∧ containsSub closeTag pi.2 = false :=
      fun pi hpi => hwf pi (List.mem_cons_of_mem _ hpi)
    have hlen : (renderDoc ((p, i) :: segs') last).length
        = p.length + (7 + (i.length + (8 + (renderDoc segs' last).length))) := by
      simp only [renderDoc, List.length_append]
      have ho : openTag.length = 7 := rfl
      have hc : closeTag.length = 8 := rfl
      rw [ho, hc]
    cases fuel with
    | zero =>
      exfalso
      rw [hlen] at hfuel
      omega
    | succ f =>
      have hfuel' : (renderDoc segs' last).length ≤ f := by
        rw [hlen] at hfuel
        omega
      have e1 : findSubstr openTag
          (p ++ (openTag ++ (i ++ (closeTag ++ renderDoc segs' last))))
          = some p.length :=
        findSubstr_at_append openTag p _ (by decide) openTag_noBorder
          (not_infix_of_not_contains _ _ hp)
      have e2 : (p ++ (openTag ++ (i ++ (closeTag ++ renderDoc segs' last)))).take
          p.length = p := List.take_left p _
      have e3 : (p ++ (openTag ++ (i ++ (closeTag ++ renderDoc segs' last)))).drop
          (p.length + 7) = i ++ (closeTag ++ renderDoc segs' last) := by
        rw [← List.append_assoc p openTag]
        have hl7 : p.length + 7 = (p ++ openTag).length := by
          simp [openTag]
        rw [hl7, List.drop_left]
      have e4 : findSubstr closeTag (i ++ (closeTag ++ renderDoc segs' last))
          = some i.length :=
        findSubstr_at_append closeTag i _ (by decide) closeTag_noBorder
          (not_infix_of_not_contains _ _ hic)
      have e5 : (i ++ (closeTag ++ renderDoc segs' last)).take i.length = i :=
        List.take_left i _
      have e6 : (i ++ (closeTag ++ renderDoc segs' last)).drop (i.length + 8)
          = renderDoc segs' last := by
        rw [← List.append_assoc i closeTag]
        have hl8 : i.length + 8 = (i ++ closeTag).length := by
          simp [closeTag]
        rw [hl8, List.drop_left]
      have hrec : parseThinkAux f (renderDoc segs' last)
          = (docInners segs', docOutside segs' last) := ih f last hfuel' hwf' hlast
      simp only [renderDoc, docInners, docOutside]
      simp only [parseThinkAux, e1, e2, e3, e4, e5, e6, hrec]

/-- C5 (amended): for every input consisting only of balanced,
well-formed, non-overlapping think blocks whose surrounding text does
not itself recombine to an opening tag once the blocks are removed,
parse_thinking_content returns as thinking the concatenation of all
block interiors in document order stripped of leading and trailing
whitespace, and as cleaned exactly the input with those regions removed
and the surrounding text preserved and rejoined, which then contains no
occurrence of the opening tag. -/
theorem parse_thinking_balanced (segs : List (List Char × List Char))
    (last : List Char)
    (hwf : ∀ pi ∈ segs, containsSub openTag pi.1 = false ∧
      containsSub openTag pi.2 = false ∧ containsSub closeTag pi.2 = false)
    (hlast : containsSub openTag last = false)
    (hout : containsSub openTag (docOutside segs last) = false) :
    parse_thinking_content (some (renderDoc segs last))
      = (stripChars (docInners segs), docOutside segs last)
    ∧ containsSub openTag
        (parse_thinking_content (some (renderDoc segs last))).2 = false := by
  have h := parseThinkAux_renderDoc segs ((renderDoc segs last).length + 1) last
    (by omega) hwf hlast
  constructor
  · simp [parse_thinking_content, h]
  · simp [parse_thinking_content, h, hout]

/-- C5 witness: the theorem applied to the two-block input of the core
tests, `<think>First</think>Hello <think>Second</think>World`. -/
theorem parse_thinking_balanced_witness :
    parse_thinking_content (some (renderDoc
        [(([] : List Char), ("First").data), (("Hello ").data, ("Second").data)]
        ("World").data))
      = (stripChars (docInners
          [(([] : List Char), ("First").data),
            (("Hello ").data, ("Second").data)]),
        docOutside
          [(([] : List Char), ("First").data),
            (("Hello ").data, ("Second").data)] ("World").data)
    ∧ containsSub openTag (parse_thinking_content (some (renderDoc
        [(([] : List Char), ("First").data), (("Hello ").data, ("Second").data)]
        ("World").data))).2 = false :=
  parse_thinking_balanced
    [(([] : List Char), ("First").data), (("Hello ").data, ("Second").data)]
    ("World").data (by decide) (by decide) (by decide)

/-- C5 counterexample: the input `<thi<think>X</think>nk>done` consists
of a single balanced think block whose surrounding plain runs are free
of the opening tag, yet the cleaned text — the surrounding text rejoined
after block removal — is `<think>done`, which does contain the opening
tag, refuting the claim that cleaned contains no such occurrence. -/
theorem parse_thinking_counterexample :
    (containsSub openTag cexPre = false ∧ containsSub openTag cexInner = false
      ∧ containsSub closeTag cexInner = false
      ∧ containsSub openTag cexLast = false)
  ∧ renderDoc [(cexPre, cexInner)] cexLast = cexInput
  ∧ containsSub openTag (parse_thinking_content (some cexInput)).2 = true := by
  refine ⟨⟨?_, ?_, ?_, ?_⟩, ?_, ?_⟩ <;> decide
